import Mathlib

/-!
Verification development for the true-storage cache layer.

The Python sources are shallowly embedded as follows:

* A Python `OrderedDict` is modelled as an association list `List (K × V)`
  whose head is the oldest (first-inserted) binding and whose tail end is the
  newest.  Assignment to an existing key updates the value in place (it does
  not move the binding), assignment to a fresh key appends at the end, and
  `popitem(last=False)` drops the head — exactly the CPython semantics used by
  the sources.
* `time.time()` is an explicit `now : Nat` argument threaded through every
  operation; real-valued subtraction `now - ts > e` agrees with truncated
  `Nat` subtraction for the non-negative expiration times used here.
* A call that can raise, block forever on the store's non-reentrant
  `threading.Lock`, or return normally is modelled by the `PyResult` type.

Model-to-source map:

* `sessionV1_*` — `src/true_storage/session.py`, class `SessionStore`.
* `storeV2_*`   — `src/true_storage/store.py`, class `SessionStore`.
* `hotV2_*`, `coldV2_*`, `mixedV2_*` — `src/true_storage/store.py`,
  classes `HotStorage`, `ColdStorage`, `MixedStorage`.
* `hot_*`, `cold_*`, `mixedV3_*` — `src/true_storage/storage/hot.py`,
  `cold.py`, `mixed.py`.
* `sqlite_*` — `src/true_storage/store.py`, class `SQLiteStorage`.
* `spec_*` — the Lock Manager / Persistence Manager of the specification,
  whose implementing module is not present under `src/` (only its tests are);
  these definitions are modelled from the spec, as marked on each one.
-/

/-- Outcome of a Python call: normal return, a raised exception (wrapped into
`StorageError` by the sources), or blocking forever on the store's
non-reentrant `threading.Lock`. -/
inductive PyResult (α : Type) where
  | ok (a : α)
  | error (msg : String)
  | deadlock
  deriving DecidableEq, Repr

/-! ### OrderedDict as an association list -/

/-- First binding of `k`, scanning from the oldest entry. -/
def odLookup {K V : Type} [DecidableEq K] : List (K × V) → K → Option V
  | [], _ => none
  | (k', v) :: rest, k => if k' = k then some v else odLookup rest k

/-- Python `key in d`. -/
def odMem {K V : Type} [DecidableEq K] (s : List (K × V)) (k : K) : Bool :=
  (odLookup s k).isSome

/-- Python `d[key] = value`: update in place if present, else append at the
newest end. -/
def odInsert {K V : Type} [DecidableEq K] : List (K × V) → K → V → List (K × V)
  | [], k, v => [(k, v)]
  | (k', v') :: rest, k, v =>
      if k' = k then (k, v) :: rest else (k', v') :: odInsert rest k v

/-- Python `del d[key]` (first binding only; keys are unique in a dict). -/
def odErase {K V : Type} [DecidableEq K] : List (K × V) → K → List (K × V)
  | [], _ => []
  | (k', v') :: rest, k => if k' = k then rest else (k', v') :: odErase rest k

/-- Python `OrderedDict.move_to_end(key)`; only called by the sources when the
key is present, so the absent case leaves the dict unchanged. -/
def odMoveToEnd {K V : Type} [DecidableEq K] (s : List (K × V)) (k : K) :
    List (K × V) :=
  match odLookup s k with
  | none => s
  | some v => odErase s k ++ [(k, v)]

/-! ### `src/true_storage/session.py` — class `SessionStore` (`sessionV1`) -/

/-- Configuration shared by both `SessionStoreConfig` dataclasses
(`session.py` and `store.py`), with the source defaults. -/
structure SessionStoreConfig where
  max_size : Nat := 1000
  expiration_time : Nat := 3600
  cleanup_interval : Nat := 60
  deriving DecidableEq, Repr

/-- State of `session.py`'s `SessionStore`: the `OrderedDict` `_store` of
values, and the separate `_timestamps` dict of insertion times. -/
structure SessionV1State (K V : Type) where
  store : List (K × V) := []
  timestamps : List (K × Nat) := []
  deriving DecidableEq, Repr

/-- `session.py` `SessionStore.set`: when `len(_store) >= max_size` it first
pops the oldest `_store` item (a `popitem` on an empty dict raises, which the
`except` clause rewraps into `StorageError`), then writes `_store[key]` and
`_timestamps[key]`.  The evicted key is *not* removed from `_timestamps`. -/
def sessionV1_set {K V : Type} [DecidableEq K] (cfg : SessionStoreConfig)
    (st : SessionV1State K V) (now : Nat) (k : K) (v : V) :
    PyResult (SessionV1State K V) :=
  if cfg.max_size ≤ st.store.length then
    match st.store with
    | [] => .error "Failed to set value"
    | _ :: rest =>
        .ok { store := odInsert rest k v
              timestamps := odInsert st.timestamps k now }
  else
    .ok { store := odInsert st.store k v
          timestamps := odInsert st.timestamps k now }

/-- `session.py` `SessionStore.get`: miss returns the default; a present but
expired key reaches `self.delete(key)`, which re-acquires the non-reentrant
`threading.Lock` already held by `get` — the call blocks forever
(`.deadlock`), so no branch ever mutates the state; a missing timestamp would
raise `KeyError`, rewrapped into `StorageError`.  A hit returns the stored
value without touching the recency order. -/
def sessionV1_get {K V : Type} [DecidableEq K] (cfg : SessionStoreConfig)
    (st : SessionV1State K V) (now : Nat) (k : K) (dflt : V) :
    PyResult V × SessionV1State K V :=
  match odLookup st.store k with
  | none => (.ok dflt, st)
  | some v =>
    match odLookup st.timestamps k with
    | none => (.error "Failed to get value", st)
    | some ts =>
      if cfg.expiration_time < now - ts then (.deadlock, st)
      else (.ok v, st)

/-- `session.py` `SessionStore.delete` (called with the lock free). -/
def sessionV1_delete {K V : Type} [DecidableEq K] (st : SessionV1State K V)
    (k : K) : Bool × SessionV1State K V :=
  if odMem st.store k then
    (true, { store := odErase st.store k, timestamps := odErase st.timestamps k })
  else (false, st)

/-- `session.py` `SessionStore.clear`. -/
def sessionV1_clear {K V : Type} (_st : SessionV1State K V) :
    SessionV1State K V := {}

/-- `session.py` `SessionStore.__len__`: counts the entries of `_timestamps`
(not `_store`) whose age is within the expiration time. -/
def sessionV1_len {K V : Type} (cfg : SessionStoreConfig)
    (st : SessionV1State K V) (now : Nat) : Nat :=
  (st.timestamps.filter (fun p => now - p.2 ≤ cfg.expiration_time)).length

/-- Spec-side count for C8: the number of *resident* entries (bindings of
`_store`) whose expiration deadline has not yet passed. -/
def sessionV1_liveCount {K V : Type} [DecidableEq K] (cfg : SessionStoreConfig)
    (st : SessionV1State K V) (now : Nat) : Nat :=
  (st.store.filter (fun p =>
    match odLookup st.timestamps p.1 with
    | some ts => decide (now - ts ≤ cfg.expiration_time)
    | none => false)).length

/-- `session.py` `SessionStore.__contains__`: literally
`self.get(key) is not None`.  Python values that may be `None` are modelled
as `Option α` with `none` standing for `None`; `get`'s default is `None`. -/
def sessionV1_contains {K α : Type} [DecidableEq K] (cfg : SessionStoreConfig)
    (st : SessionV1State K (Option α)) (now : Nat) (k : K) :
    PyResult Bool :=
  match (sessionV1_get cfg st now k none).1 with
  | .ok v => .ok v.isSome
  | .error e => .error e
  | .deadlock => .deadlock

/-- Outcome of Python `store[key]` subscript access. -/
inductive ItemResult (α : Type) where
  | value (a : α)
  | keyError
  | errored
  | deadlock
  deriving DecidableEq, Repr

/-- `session.py` `SessionStore.__getitem__`: `value = self.get(key)` and
`raise KeyError(key)` when the result `is None`. -/
def sessionV1_getitem {K α : Type} [DecidableEq K] (cfg : SessionStoreConfig)
    (st : SessionV1State K (Option α)) (now : Nat) (k : K) :
    ItemResult α :=
  match (sessionV1_get cfg st now k none).1 with
  | .ok none => .keyError
  | .ok (some a) => .value a
  | .error _ => .errored
  | .deadlock => .deadlock

/-! ### `src/true_storage/store.py` — class `SessionStore` (`storeV2`) -/

/-- State of `store.py`'s `SessionStore`: one `OrderedDict` from key to the
pair `(value, expire_at)`, oldest first. -/
abbrev StoreV2State (K V : Type) := List (K × (V × Nat))

/-- `store.py` `SessionStore.set`: a resident key is deleted and re-inserted
at the newest end; otherwise, at capacity, the oldest item is evicted first
(`popitem` on an empty dict — only possible with `max_size = 0` — raises an
uncaught `KeyError`).  The new binding carries `expire_at = now +
expiration_time`. -/
def storeV2_set {K V : Type} [DecidableEq K] (cfg : SessionStoreConfig)
    (st : StoreV2State K V) (now : Nat) (k : K) (v : V) :
    PyResult (StoreV2State K V) :=
  if odMem st k then
    .ok (odErase st k ++ [(k, (v, now + cfg.expiration_time))])
  else if cfg.max_size ≤ st.length then
    match st with
    | [] => .error "KeyError: dictionary is empty"
    | _ :: rest => .ok (rest ++ [(k, (v, now + cfg.expiration_time))])
  else
    .ok (st ++ [(k, (v, now + cfg.expiration_time))])

/-- `store.py` `SessionStore.get`: a miss returns the default; an unexpired
hit is moved to the newest end (`move_to_end`) and returned; an expired entry
is deleted in place and the default is returned. -/
def storeV2_get {K V : Type} [DecidableEq K] (_cfg : SessionStoreConfig)
    (st : StoreV2State K V) (now : Nat) (k : K) (dflt : V) :
    V × StoreV2State K V :=
  match odLookup st k with
  | none => (dflt, st)
  | some (v, expire_at) =>
    if now ≤ expire_at then (v, odMoveToEnd st k)
    else (dflt, odErase st k)

/-- `store.py` `SessionStore.delete`. -/
def storeV2_delete {K V : Type} [DecidableEq K] (st : StoreV2State K V)
    (k : K) : Bool × StoreV2State K V :=
  if odMem st k then (true, odErase st k) else (false, st)

/-- `store.py` `SessionStore.clear`. -/
def storeV2_clear {K V : Type} (_st : StoreV2State K V) : StoreV2State K V := []

/-- `store.py` `SessionStore.__len__`: simply `len(self._store)` — every
resident entry is counted, expired or not. -/
def storeV2_len {K V : Type} (st : StoreV2State K V) : Nat := st.length

/-- Spec-side count for C8: resident entries whose `expire_at` has not yet
passed. -/
def storeV2_liveCount {K V : Type} (st : StoreV2State K V) (now : Nat) : Nat :=
  (st.filter (fun p => now ≤ p.2.2)).length

/-! ### `src/true_storage/store.py` — `HotStorage`, `ColdStorage`,
`MixedStorage` (`hotV2`, `coldV2`, `mixedV2`) -/

/-- Constructor defaults of both `HotStorage` classes:
`max_size=100, expiration_time=300`. -/
structure HotStorageConfig where
  max_size : Nat := 100
  expiration_time : Nat := 300
  deriving DecidableEq, Repr

/-- State of `store.py`'s `HotStorage`: one `OrderedDict` from key to the
pair `(value, timestamp)`. -/
structure HotV2State (K V : Type) where
  data : List (K × (V × Nat)) := []
  deriving DecidableEq, Repr

/-- `store.py` `HotStorage._remove_expired_items`: deletes, in place and with
no nested lock acquisition, every entry whose age exceeds the expiration
time. -/
def hotV2_removeExpired {K V : Type} (cfg : HotStorageConfig) (now : Nat)
    (d : List (K × (V × Nat))) : List (K × (V × Nat)) :=
  d.filter (fun p => now - p.2.2 ≤ cfg.expiration_time)

/-- `store.py` `HotStorage.store`: sweep expired items, delete a resident
key, append the new `(value, timestamp)` binding, then pop the oldest item if
the size now exceeds `max_size`. -/
def hotV2_store {K V : Type} [DecidableEq K] (cfg : HotStorageConfig)
    (st : HotV2State K V) (now : Nat) (k : K) (v : V) : HotV2State K V :=
  let d0 := hotV2_removeExpired cfg now st.data
  let d1 := if odMem d0 k then odErase d0 k else d0
  let d2 := d1 ++ [(k, (v, now))]
  if cfg.max_size < d2.length then { data := d2.tail } else { data := d2 }

/-- `store.py` `HotStorage.retrieve`: sweep expired items, then return the
stored value (or `None`) without updating order or timestamp. -/
def hotV2_retrieve {K V : Type} [DecidableEq K] (cfg : HotStorageConfig)
    (st : HotV2State K V) (now : Nat) (k : K) :
    Option V × HotV2State K V :=
  let d0 := hotV2_removeExpired cfg now st.data
  ((odLookup d0 k).map Prod.fst, { data := d0 })

/-- `store.py` `HotStorage.delete`. -/
def hotV2_delete {K V : Type} [DecidableEq K] (st : HotV2State K V) (k : K) :
    HotV2State K V :=
  { data := odErase st.data k }

/-- `store.py` `HotStorage.clear`. -/
def hotV2_clear {K V : Type} (_st : HotV2State K V) : HotV2State K V := {}

/-- `store.py` `ColdStorage`: the metadata dict plus the per-key `.bin` files,
modelled together as one map from key to stored value. -/
abbrev ColdV2State (K V : Type) := List (K × V)

/-- `store.py` `ColdStorage.store`: (over)writes the key's file and metadata
entry. -/
def coldV2_store {K V : Type} [DecidableEq K] (st : ColdV2State K V) (k : K)
    (v : V) : ColdV2State K V :=
  odInsert st k v

/-- `store.py` `ColdStorage.retrieve`: returns `None` when the key is not in
the metadata. -/
def coldV2_retrieve {K V : Type} [DecidableEq K] (st : ColdV2State K V)
    (k : K) : Option V :=
  odLookup st k

/-- State of `store.py`'s `MixedStorage`. -/
structure MixedV2State (K V : Type) where
  hot : HotV2State K V := {}
  cold : ColdV2State K V := []
  deriving DecidableEq, Repr

/-- `store.py` `MixedStorage.store_session`: write-through to both tiers. -/
def mixedV2_store {K V : Type} [DecidableEq K] (cfg : HotStorageConfig)
    (st : MixedV2State K V) (now : Nat) (k : K) (v : V) : MixedV2State K V :=
  { hot := hotV2_store cfg st.hot now k v, cold := coldV2_store st.cold k v }

/-- `store.py` `MixedStorage.retrieve_session`: try the hot tier, fall back to
the cold tier, and return — the hot tier is *not* repopulated on a cold
hit. -/
def mixedV2_retrieve {K V : Type} [DecidableEq K] (cfg : HotStorageConfig)
    (st : MixedV2State K V) (now : Nat) (k : K) :
    Option V × MixedV2State K V :=
  match hotV2_retrieve cfg st.hot now k with
  | (some v, hot') => (some v, { st with hot := hot' })
  | (none, hot') => (coldV2_retrieve st.cold k, { st with hot := hot' })

/-! ### `src/true_storage/storage/hot.py`, `cold.py`, `mixed.py`
(`hot`, `cold`, `mixedV3`) -/

/-- State of `storage/hot.py`'s `HotStorage`: the `OrderedDict` `data` of
values and the separate `_timestamps` dict. -/
structure HotState (K V : Type) where
  data : List (K × V) := []
  timestamps : List (K × Nat) := []
  deriving DecidableEq, Repr

/-- Whether `storage/hot.py`'s `_remove_expired_items` finds at least one
expired key.  If it does, the first `self.delete(key)` re-acquires the
non-reentrant `threading.Lock` already held by the caller (`store` or
`retrieve`) and blocks forever. -/
def hot_anyExpired {K : Type} (exp now : Nat) (ts : List (K × Nat)) : Bool :=
  ts.any (fun p => exp < now - p.2)

/-- `storage/hot.py` `HotStorage.store`: the expiry sweep deadlocks when any
entry has expired; otherwise a resident key is deleted from `data` (only),
or, at capacity, the oldest `data` item is popped (its timestamp is left
behind, and popping an empty dict — possible only with `max_size = 0` —
raises, rewrapped into `StorageError`); finally the binding is appended and
its timestamp written. -/
def hot_store {K V : Type} [DecidableEq K] (cfg : HotStorageConfig)
    (st : HotState K V) (now : Nat) (k : K) (v : V) :
    PyResult (HotState K V) :=
  if hot_anyExpired cfg.expiration_time now st.timestamps then .deadlock
  else if odMem st.data k then
    .ok { data := odErase st.data k ++ [(k, v)]
          timestamps := odInsert st.timestamps k now }
  else if cfg.max_size ≤ st.data.length then
    match st.data with
    | [] => .error "Failed to store value"
    | _ :: rest =>
        .ok { data := rest ++ [(k, v)]
              timestamps := odInsert st.timestamps k now }
  else
    .ok { data := st.data ++ [(k, v)]
          timestamps := odInsert st.timestamps k now }

/-- `storage/hot.py` `HotStorage.retrieve`: the expiry sweep deadlocks when
any entry has expired; a miss returns `None`; a hit pops and re-appends the
binding (move to the newest end) and refreshes its timestamp. -/
def hot_retrieve {K V : Type} [DecidableEq K] (cfg : HotStorageConfig)
    (st : HotState K V) (now : Nat) (k : K) :
    PyResult (Option V × HotState K V) :=
  if hot_anyExpired cfg.expiration_time now st.timestamps then .deadlock
  else
    match odLookup st.data k with
    | none => .ok (none, st)
    | some v =>
        .ok (some v, { data := odErase st.data k ++ [(k, v)]
                       timestamps := odInsert st.timestamps k now })

/-- `storage/hot.py` `HotStorage.delete` (called with the lock free). -/
def hot_delete {K V : Type} [DecidableEq K] (st : HotState K V) (k : K) :
    HotState K V :=
  if odMem st.data k then
    { data := odErase st.data k, timestamps := odErase st.timestamps k }
  else st

/-- `storage/hot.py` `HotStorage.clear`. -/
def hot_clear {K V : Type} (_st : HotState K V) : HotState K V := {}

/-- `storage/cold.py` `ColdStorage`, modelled as one map from key to stored
value (metadata entry plus `.bin` file). -/
abbrev ColdState (K V : Type) := List (K × V)

/-- `storage/cold.py` `ColdStorage.store`. -/
def cold_store {K V : Type} [DecidableEq K] (st : ColdState K V) (k : K)
    (v : V) : ColdState K V :=
  odInsert st k v

/-- `storage/cold.py` `ColdStorage.retrieve`: raises `KeyError` when the key
is not in the metadata; `none` here stands for that raised `KeyError`. -/
def cold_retrieve {K V : Type} [DecidableEq K] (st : ColdState K V) (k : K) :
    Option V :=
  odLookup st k

/-- State of `storage/mixed.py`'s `MixedStorage`. -/
structure MixedV3State (K V : Type) where
  hot : HotState K V := {}
  cold : ColdState K V := []
  deriving DecidableEq, Repr

/-- `storage/mixed.py` `MixedStorage.store_session`: write-through to both
tiers; a hot-tier exception is rewrapped into `StorageError`, a hot-tier
deadlock blocks the call. -/
def mixedV3_store {K V : Type} [DecidableEq K] (cfg : HotStorageConfig)
    (st : MixedV3State K V) (now : Nat) (k : K) (v : V) :
    PyResult (MixedV3State K V) :=
  match hot_store cfg st.hot now k v with
  | .ok hot' => .ok { hot := hot', cold := cold_store st.cold k v }
  | .error e => .error ("Failed to store session: " ++ e)
  | .deadlock => .deadlock

/-- `storage/mixed.py` `MixedStorage.retrieve_session`: hot hit returns
immediately; on hot miss the cold tier is queried — its `KeyError` is caught
and turned into `None` — and a cold hit is written back into the hot tier
(read-through repopulation) before being returned. -/
def mixedV3_retrieve {K V : Type} [DecidableEq K] (cfg : HotStorageConfig)
    (st : MixedV3State K V) (now : Nat) (k : K) :
    PyResult (Option V × MixedV3State K V) :=
  match hot_retrieve cfg st.hot now k with
  | .error e => .error ("Failed to retrieve session: " ++ e)
  | .deadlock => .deadlock
  | .ok (some v, hot') => .ok (some v, { st with hot := hot' })
  | .ok (none, hot') =>
    match cold_retrieve st.cold k with
    | none => .ok (none, { st with hot := hot' })
    | some v =>
      match hot_store cfg hot' now k v with
      | .ok hot'' => .ok (some v, { st with hot := hot'' })
      | .error e => .error ("Failed to retrieve session: " ++ e)
      | .deadlock => .deadlock

/-! ### `src/true_storage/store.py` — class `SQLiteStorage` (`sqlite`) -/

/-- Columns of the `checkpoints` table created by `SQLiteStorage._init_db`. -/
def checkpointsColumns : List String := ["item_k", "value", "created_at"]

/-- Column names written by the `INSERT OR REPLACE` statement in
`SQLiteStorage.store`. -/
def storeInsertColumns : List String := ["key", "value"]

/-- Rows of the `checkpoints` table, keyed by the `item_k` primary key. -/
structure SQLiteState (V : Type) where
  rows : List (String × V) := []
  deriving DecidableEq, Repr

/-- SQL semantics of `INSERT OR REPLACE INTO checkpoints (<cols>) VALUES ...`:
the statement fails (an `OperationalError`) unless every named column exists
in the table's schema; on success the row is upserted by primary key. -/
def sqlInsertOrReplace {V : Type} (tableCols insertCols : List String)
    (rowKey : String) (rowVal : V) (db : SQLiteState V) :
    Except String (SQLiteState V) :=
  if insertCols.all (fun c => tableCols.contains c) then
    .ok { rows := odInsert db.rows rowKey rowVal }
  else
    .error "OperationalError: table checkpoints has no column named key"

/-- `store.py` `SQLiteStorage.store`: runs the `INSERT OR REPLACE` naming
columns `(key, value)` against the `checkpoints` table; any exception is
rewrapped into `StorageError`. -/
def sqlite_store {V : Type} (db : SQLiteState V) (k : String) (v : V) :
    Except String (SQLiteState V) :=
  match sqlInsertOrReplace checkpointsColumns storeInsertColumns k v db with
  | .ok db' => .ok db'
  | .error e => .error ("Failed to store value: " ++ e)

/-- `store.py` `SQLiteStorage.retrieve`: `SELECT value FROM checkpoints WHERE
item_k = ?`; an empty result raises `KeyError`, which the blanket `except`
rewraps into `StorageError`. -/
def sqlite_retrieve {V : Type} (db : SQLiteState V)
    (k : String) : Except String V :=
  match odLookup db.rows k with
  | none => .error "Failed to retrieve value: KeyError"
  | some v => .ok v

/-- A caller issuing a sequence of `store` calls against an initially empty
`SQLiteStorage`; a raised `StorageError` leaves the database unchanged. -/
def sqlite_runStores {V : Type} (ops : List (String × V)) : SQLiteState V :=
  ops.foldl
    (fun db p =>
      match sqlite_store db p.1 p.2 with
      | .ok db' => db'
      | .error _ => db)
    {}

/-! ### Lock Manager and Persistence Manager, modelled from the spec

The `SessionStore` that `src/tests/test_session.py` exercises — the one with
`SessionStatus`, `lock`, `get_metadata`, `persistence_path`, `backup_interval`
and `stop` — is not present under `src/`; only its tests are.  The `spec_*`
definitions below model that missing module from the specification's words
(§3, §4.1, §4.2, §4.4). -/

/-- Modelled from the spec: per-entry status,
`status ∈ {Active, Locked, Expired}` (§3, missing session module). -/
inductive SessionStatus where
  | active
  | locked
  | expired
  deriving DecidableEq, Repr

/-- Modelled from the spec: an Entry of the missing session module — `value`,
`expire_at` (absolute deadline), `lock_expire` (absolute deadline or absent),
`status`, `access_count`, `last_access` (§3). -/
structure SpecEntry (V : Type) where
  value : V
  expire_at : Nat
  lock_expire : Option Nat := none
  status : SessionStatus := .active
  access_count : Nat := 0
  last_access : Nat := 0
  deriving DecidableEq, Repr

/-- Modelled from the spec: the Cache Store state of the missing session
module — a recency-ordered sequence of entries, most-recently-used at the
tail (§3). -/
abbrev SpecState (K V : Type) := List (K × SpecEntry V)

/-- Modelled from the spec: whether an entry is `Locked` with an unexpired
lease at time `now` (§3, §4.1: `status=Locked` and `now < lock_expire`). -/
def spec_lockBusy {V : Type} (e : SpecEntry V) (now : Nat) : Bool :=
  e.status = SessionStatus.locked &&
    (match e.lock_expire with
     | some le => decide (now < le)
     | none => false)

/-- Modelled from the spec: `set(key, value, ttl=default)` of the missing
session module — if at capacity and the key is new, evict the head
(least-recently-used) entry first; insert/replace at the tail with
`expire_at = now + ttl`, `access_count = 0`, `status = Active` (§4.1). -/
def spec_set {K V : Type} [DecidableEq K] (cfg : SessionStoreConfig)
    (st : SpecState K V) (now : Nat) (k : K) (v : V) : SpecState K V :=
  let entry : SpecEntry V :=
    { value := v, expire_at := now + cfg.expiration_time,
      lock_expire := none, status := .active, access_count := 0,
      last_access := now }
  if odMem st k then odErase st k ++ [(k, entry)]
  else if cfg.max_size ≤ st.length then st.tail ++ [(k, entry)]
  else st ++ [(k, entry)]

/-- Result of the missing session module's `get`: a miss (absent key or
TTL-expired entry), a `Busy` error, or the stored value. -/
inductive SpecGetResult (V : Type) where
  | absent
  | busy
  | found (v : V)
  deriving DecidableEq, Repr

/-- Modelled from the spec: `get(key)` of the missing session module — a
missing key is absent; `now > expire_at` lazily deletes and is absent (a
cache miss, not an error); `status=Locked` with `now < lock_expire` fails
with `Busy`; otherwise an expired lock is cleared (the entry reverts to
`Active`), the entry moves to the tail (MRU), `access_count` is incremented,
`last_access` is updated and the value returned (§4.1, §4.2). -/
def spec_get {K V : Type} [DecidableEq K] (_cfg : SessionStoreConfig)
    (st : SpecState K V) (now : Nat) (k : K) :
    SpecGetResult V × SpecState K V :=
  match odLookup st k with
  | none => (.absent, st)
  | some e =>
    if e.expire_at < now then (.absent, odErase st k)
    else if spec_lockBusy e now then (.busy, st)
    else
      let e' : SpecEntry V :=
        { e with status := .active, lock_expire := none,
                 access_count := e.access_count + 1, last_access := now }
      (.found e.value, odErase st k ++ [(k, e')])

/-- Modelled from the spec: `lock(key, duration)` of the missing session
module — fails (`false`) if the key is absent or already `Locked` with an
unexpired lease; otherwise sets `status = Locked`,
`lock_expire = now + duration` in place and returns `true` (§4.2). -/
def spec_lock {K V : Type} [DecidableEq K] (st : SpecState K V) (now : Nat)
    (k : K) (d : Nat) : Bool × SpecState K V :=
  match odLookup st k with
  | none => (false, st)
  | some e =>
    if spec_lockBusy e now then (false, st)
    else
      (true, odInsert st k
        { e with status := .locked, lock_expire := some (now + d) })

/-- Modelled from the spec: `get_metadata(key)` of the missing session
module — a read-only snapshot of the entry without mutating recency
(§4.2). -/
def spec_get_metadata {K V : Type} [DecidableEq K] (st : SpecState K V)
    (k : K) : Option (SpecEntry V) :=
  odLookup st k

/-- Modelled from the spec: one persisted entry of the snapshot file —
`{value, expire_at, status, access_count}` (§4.4, §6). -/
structure PersistedEntry (V : Type) where
  value : V
  expire_at : Nat
  status : SessionStatus
  access_count : Nat
  deriving DecidableEq, Repr

/-- Modelled from the spec: `snapshot(path)` of the missing Persistence
Manager — serializes all currently non-expired entries, atomically (§4.4). -/
def spec_snapshot {K V : Type} (st : SpecState K V) (now : Nat) :
    List (K × PersistedEntry V) :=
  (st.filter (fun p => now ≤ p.2.expire_at)).map
    (fun p => (p.1,
      { value := p.2.value, expire_at := p.2.expire_at,
        status := p.2.status, access_count := p.2.access_count }))

/-- Modelled from the spec: `stop()` of the missing session module — a final
snapshot is flushed synchronously before returning (§4.3). -/
def spec_stop {K V : Type} (st : SpecState K V) (now : Nat) :
    List (K × PersistedEntry V) :=
  spec_snapshot st now

/-- Modelled from the spec: `restore(path)` of the missing Persistence
Manager — on construction, deserializes and repopulates the Cache Store,
skipping any entry whose persisted `expire_at` is already in the past
(§4.4). -/
def spec_restore {K V : Type} (snap : List (K × PersistedEntry V))
    (now : Nat) : SpecState K V :=
  (snap.filter (fun p => now ≤ p.2.expire_at)).map
    (fun p => (p.1,
      { value := p.2.value, expire_at := p.2.expire_at,
        lock_expire := none, status := p.2.status,
        access_count := p.2.access_count, last_access := now }))

/-! ### Operation sequences -/

/-- One foreground operation on a cache store: `set`/`store`, `get`/`retrieve`
(with its default argument), `delete`, or `clear`, each carrying the
`time.time()` value at which it runs. -/
inductive CacheOp (K V : Type) where
  | set (now : Nat) (k : K) (v : V)
  | get (now : Nat) (k : K) (dflt : V)
  | del (k : K)
  | clear
  deriving DecidableEq, Repr

/-- Effect of one operation on `session.py`'s `SessionStore`; a raised or
deadlocked call leaves the state as it was. -/
def sessionV1_step {K V : Type} [DecidableEq K] (cfg : SessionStoreConfig)
    (st : SessionV1State K V) : CacheOp K V → SessionV1State K V
  | .set now k v =>
    match sessionV1_set cfg st now k v with
    | .ok st' => st'
    | .error _ => st
    | .deadlock => st
  | .get now k dflt => (sessionV1_get cfg st now k dflt).2
  | .del k => (sessionV1_delete st k).2
  | .clear => sessionV1_clear st

/-- `session.py` `SessionStore` run from a fresh (empty) store. -/
def sessionV1_run {K V : Type} [DecidableEq K] (cfg : SessionStoreConfig)
    (ops : List (CacheOp K V)) : SessionV1State K V :=
  ops.foldl (sessionV1_step cfg) {}

/-- Effect of one operation on `store.py`'s `SessionStore`. -/
def storeV2_step {K V : Type} [DecidableEq K] (cfg : SessionStoreConfig)
    (st : StoreV2State K V) : CacheOp K V → StoreV2State K V
  | .set now k v =>
    match storeV2_set cfg st now k v with
    | .ok st' => st'
    | .error _ => st
    | .deadlock => st
  | .get now k dflt => (storeV2_get cfg st now k dflt).2
  | .del k => (storeV2_delete st k).2
  | .clear => storeV2_clear st

/-- `store.py` `SessionStore` run from a fresh (empty) store. -/
def storeV2_run {K V : Type} [DecidableEq K] (cfg : SessionStoreConfig)
    (ops : List (CacheOp K V)) : StoreV2State K V :=
  ops.foldl (storeV2_step cfg) []

/-- Effect of one operation on `store.py`'s `HotStorage`. -/
def hotV2_step {K V : Type} [DecidableEq K] (cfg : HotStorageConfig)
    (st : HotV2State K V) : CacheOp K V → HotV2State K V
  | .set now k v => hotV2_store cfg st now k v
  | .get now k _ => (hotV2_retrieve cfg st now k).2
  | .del k => hotV2_delete st k
  | .clear => hotV2_clear st

/-- `store.py` `HotStorage` run from a fresh (empty) store. -/
def hotV2_run {K V : Type} [DecidableEq K] (cfg : HotStorageConfig)
    (ops : List (CacheOp K V)) : HotV2State K V :=
  ops.foldl (hotV2_step cfg) {}

/-- Effect of one operation on `storage/hot.py`'s `HotStorage`; a raised or
deadlocked call leaves the state as it was. -/
def hot_step {K V : Type} [DecidableEq K] (cfg : HotStorageConfig)
    (st : HotState K V) : CacheOp K V → HotState K V
  | .set now k v =>
    match hot_store cfg st now k v with
    | .ok st' => st'
    | .error _ => st
    | .deadlock => st
  | .get now k _ =>
    match hot_retrieve cfg st now k with
    | .ok (_, st') => st'
    | .error _ => st
    | .deadlock => st
  | .del k => hot_delete st k
  | .clear => hot_clear st

/-- `storage/hot.py` `HotStorage` run from a fresh (empty) store. -/
def hot_run {K V : Type} [DecidableEq K] (cfg : HotStorageConfig)
    (ops : List (CacheOp K V)) : HotState K V :=
  ops.foldl (hot_step cfg) {}

/-! ### Lemmas about the OrderedDict model -/

theorem odInsert_length_le {K V : Type} [DecidableEq K] (s : List (K × V))
    (k : K) (v : V) : (odInsert s k v).length ≤ s.length + 1 := by
  induction s with
  | nil => simp [odInsert]
  | cons p rest ih =>
    obtain ⟨k', v'⟩ := p
    by_cases h : k' = k <;> simp [odInsert, h]
    omega

theorem odErase_length_le {K V : Type} [DecidableEq K] (s : List (K × V))
    (k : K) : (odErase s k).length ≤ s.length := by
  induction s with
  | nil => simp [odErase]
  | cons p rest ih =>
    obtain ⟨k', v'⟩ := p
    by_cases h : k' = k
    · simp only [odErase, if_pos h, List.length_cons]
      omega
    · simp only [odErase, if_neg h, List.length_cons]
      omega

theorem odErase_length_of_mem {K V : Type} [DecidableEq K]
    (s : List (K × V)) (k : K) (h : odMem s k = true) :
    (odErase s k).length + 1 = s.length := by
  induction s with
  | nil => simp [odMem, odLookup] at h
  | cons p rest ih =>
    obtain ⟨k', v'⟩ := p
    by_cases hk : k' = k
    · simp [odErase, hk]
    · simp [odMem, odLookup, hk] at h
      simp [odErase, hk, ih h]

theorem odMem_of_lookup {K V : Type} [DecidableEq K] {s : List (K × V)}
    {k : K} {v : V} (h : odLookup s k = some v) : odMem s k = true := by
  simp [odMem, h]

theorem odLookup_odInsert_self {K V : Type} [DecidableEq K]
    (s : List (K × V)) (k : K) (v : V) :
    odLookup (odInsert s k v) k = some v := by
  induction s with
  | nil => simp [odInsert, odLookup]
  | cons p rest ih =>
    obtain ⟨k', v'⟩ := p
    by_cases h : k' = k <;> simp [odInsert, odLookup, h, ih]

theorem odLookup_odInsert_ne {K V : Type} [DecidableEq K]
    (s : List (K × V)) (k k' : K) (v : V) (h : k' ≠ k) :
    odLookup (odInsert s k v) k' = odLookup s k' := by
  have hne : k ≠ k' := fun hh => h hh.symm
  induction s with
  | nil => simp [odInsert, odLookup, hne]
  | cons p rest ih =>
    obtain ⟨k₀, v₀⟩ := p
    by_cases hk : k₀ = k
    · subst hk
      simp [odInsert, odLookup, hne]
    · simp [odInsert, odLookup, hk, ih]

theorem odLookup_odErase_ne {K V : Type} [DecidableEq K]
    (s : List (K × V)) (k k' : K) (h : k' ≠ k) :
    odLookup (odErase s k) k' = odLookup s k' := by
  have hne : k ≠ k' := fun hh => h hh.symm
  induction s with
  | nil => simp [odErase]
  | cons p rest ih =>
    obtain ⟨k₀, v₀⟩ := p
    by_cases hk : k₀ = k
    · subst hk
      simp [odErase, odLookup, hne]
    · simp [odErase, odLookup, hk, ih]

theorem odLookup_append {K V : Type} [DecidableEq K] (s t : List (K × V))
    (k : K) :
    odLookup (s ++ t) k =
      match odLookup s k with
      | some v => some v
      | none => odLookup t k := by
  induction s with
  | nil => simp [odLookup]
  | cons p rest ih =>
    obtain ⟨k', v'⟩ := p
    by_cases h : k' = k <;> simp [odLookup, h, ih]

theorem odLookup_eq_none_of_keys {K V : Type} [DecidableEq K]
    {s : List (K × V)} {k : K} (h : ∀ p ∈ s, p.1 ≠ k) :
    odLookup s k = none := by
  induction s with
  | nil => simp [odLookup]
  | cons p rest ih =>
    obtain ⟨k', v'⟩ := p
    have h1 : k' ≠ k := h (k', v') (List.mem_cons_self _ _)
    simp only [odLookup, if_neg h1]
    exact ih (fun q hq => h q (List.mem_cons_of_mem _ hq))

theorem odErase_keys_subset {K V : Type} [DecidableEq K]
    (s : List (K × V)) (k : K) :
    ∀ p ∈ odErase s k, p ∈ s := by
  induction s with
  | nil => simp [odErase]
  | cons q rest ih =>
    obtain ⟨k', v'⟩ := q
    by_cases h : k' = k
    · simp only [odErase, if_pos h]
      intro p hp
      exact List.mem_cons_of_mem _ hp
    · simp only [odErase, if_neg h]
      intro p hp
      rcases List.mem_cons.mp hp with h1 | h1
      · exact h1 ▸ List.mem_cons_self _ _
      · exact List.mem_cons_of_mem _ (ih p h1)

theorem odLookup_odErase_self {K V : Type} [DecidableEq K]
    {s : List (K × V)} {k : K} (hnd : (s.map Prod.fst).Nodup) :
    odLookup (odErase s k) k = none := by
  induction s with
  | nil => simp [odErase, odLookup]
  | cons p rest ih =>
    obtain ⟨k', v'⟩ := p
    simp only [List.map_cons, List.nodup_cons] at hnd
    by_cases h : k' = k
    · subst h
      simp only [odErase, if_pos rfl]
      apply odLookup_eq_none_of_keys
      intro q hq hqk
      exact hnd.1 (hqk ▸ List.mem_map_of_mem Prod.fst hq)
    · simp only [odErase, if_neg h, odLookup, if_neg h]
      exact ih hnd.2

theorem odMem_iff_mem_keys {K V : Type} [DecidableEq K]
    (s : List (K × V)) (k : K) :
    odMem s k = true ↔ k ∈ s.map Prod.fst := by
  induction s with
  | nil => simp [odMem, odLookup]
  | cons p rest ih =>
    obtain ⟨k₀, v₀⟩ := p
    by_cases h : k₀ = k
    · subst h
      simp [odMem, odLookup]
    · have hne : ¬k = k₀ := fun hh => h hh.symm
      simp only [odMem, odLookup, if_neg h, List.map_cons, List.mem_cons]
      rw [show ((odLookup rest k).isSome = true ↔ k ∈ rest.map Prod.fst)
            from ih]
      simp [hne]

theorem odInsert_map_fst {K V : Type} [DecidableEq K] (s : List (K × V))
    (k : K) (v : V) :
    (odInsert s k v).map Prod.fst =
      if odMem s k then s.map Prod.fst else s.map Prod.fst ++ [k] := by
  induction s with
  | nil => simp [odInsert, odMem, odLookup]
  | cons p rest ih =>
    obtain ⟨k₀, v₀⟩ := p
    by_cases h : k₀ = k
    · subst h
      simp [odInsert, odMem, odLookup]
    · simp only [odInsert, if_neg h, List.map_cons, ih, odMem, odLookup,
        if_neg h]
      by_cases hm : (odLookup rest k).isSome <;> simp [hm]

theorem odInsert_keys_nodup {K V : Type} [DecidableEq K]
    {s : List (K × V)} (k : K) (v : V) (hnd : (s.map Prod.fst).Nodup) :
    ((odInsert s k v).map Prod.fst).Nodup := by
  rw [odInsert_map_fst]
  by_cases hm : odMem s k
  · simp [hm, hnd]
  · have hk : k ∉ s.map Prod.fst := by
      intro hmem
      exact hm ((odMem_iff_mem_keys s k).mpr hmem)
    simp only [hm, if_neg, Bool.false_eq_true, if_false]
    simp [List.nodup_append, hnd, hk]

theorem foldl_inv {σ α : Type} (P : σ → Prop) (f : σ → α → σ)
    (hstep : ∀ s a, P s → P (f s a)) :
    ∀ (l : List α) (s : σ), P s → P (l.foldl f s) := by
  intro l
  induction l with
  | nil => intro s hs; exact hs
  | cons a rest ih => intro s hs; exact ih (f s a) (hstep s a hs)

/-! ### Claim C10 -/

theorem sqlite_store_error {V : Type} (db : SQLiteState V) (k : String)
    (v : V) :
    sqlite_store db k v = Except.error
      "Failed to store value: OperationalError: table checkpoints has no column named key" := by
  rfl

theorem sqlite_runStores_eq {V : Type} (ops : List (String × V)) :
    sqlite_runStores ops = ({} : SQLiteState V) := by
  unfold sqlite_runStores
  exact foldl_inv (fun db => db = ({} : SQLiteState V)) _
    (fun db p hdb => by simp only [sqlite_store_error]; exact hdb) ops
    ({} : SQLiteState V) rfl

/-- Claim C10: the `SQLiteStorage` variant defined in `store.py` can never
store anything — its `INSERT` names a column `key` that the table created by
`_init_db` does not have (it has `item_k`, `value`, `created_at`), so every
`store(key, value)` raises `StorageError`, and a `retrieve` of any key after
any sequence of `store` calls through this variant never returns a stored
value. -/
theorem c10_sqlite_store_always_fails :
    (∀ (db : SQLiteState Nat) (k : String) (v : Nat),
        sqlite_store db k v = Except.error
          "Failed to store value: OperationalError: table checkpoints has no column named key")
    ∧ (∀ (ops : List (String × Nat)) (k : String),
        sqlite_retrieve (sqlite_runStores ops) k =
          Except.error "Failed to retrieve value: KeyError") := by
  constructor
  · intro db k v
    exact sqlite_store_error db k v
  · intro ops k
    rw [sqlite_runStores_eq]
    rfl

/-! ### Claim C1 -/

/-- Claim C1 (evaluation at the failing input): on `session.py`'s
`SessionStore` with `max_size = 3`, the sequence `set(a,1); set(b,2);
set(c,3); get(a); set(d,4)` leaves the resident keys `[b, c, d]` — `get(a)`
does not promote `a`, so the final `set` evicts `a`, not `b` as the claim
(and `tests/test_session.py::test_lru_eviction`) requires.  On `store.py`'s
`SessionStore`, whose `get` does call `move_to_end`, the same sequence leaves
`[c, a, d]`: `b` is evicted and the resident set is `{a, c, d}`, exactly as
claimed. -/
theorem c1_lru_promotion_eval :
    (sessionV1_run
        { max_size := 3, expiration_time := 3600, cleanup_interval := 60 }
        [CacheOp.set 0 "a" 1, CacheOp.set 0 "b" 2, CacheOp.set 0 "c" 3,
         CacheOp.get 0 "a" 0, CacheOp.set 0 "d" 4]).store.map Prod.fst
      = ["b", "c", "d"]
    ∧ (storeV2_run
        { max_size := 3, expiration_time := 3600, cleanup_interval := 60 }
        [CacheOp.set 0 "a" 1, CacheOp.set 0 "b" 2, CacheOp.set 0 "c" 3,
         CacheOp.get 0 "a" 0, CacheOp.set 0 "d" 4]).map Prod.fst
      = ["c", "a", "d"] := by
  exact ⟨rfl, rfl⟩

/-! ### Claim C3 -/

/-- Claim C3 (evaluation at the failing input): on `session.py`'s
`SessionStore` with `expiration_time = 60`, after `set("k","v")` at time 0, a
`get("k")` at time 61 deadlocks — the expired branch calls `self.delete`,
which re-acquires the non-reentrant lock `get` already holds — and the
expired entry is not removed.  `store.py`'s `SessionStore.get`, by contrast,
returns the default and deletes the expired entry, which is what the claim
(and `session.py`'s own docstring) describes. -/
theorem c3_expired_get_eval :
    sessionV1_set
        { max_size := 1000, expiration_time := 60, cleanup_interval := 60 }
        ({} : SessionV1State String String) 0 "k" "v"
      = PyResult.ok { store := [("k", "v")], timestamps := [("k", 0)] }
    ∧ (sessionV1_get
        { max_size := 1000, expiration_time := 60, cleanup_interval := 60 }
        { store := [("k", "v")], timestamps := [("k", 0)] } 61 "k" "d").1
      = PyResult.deadlock
    ∧ (sessionV1_get
        { max_size := 1000, expiration_time := 60, cleanup_interval := 60 }
        { store := [("k", "v")], timestamps := [("k", 0)] } 61 "k" "d").2
      = { store := [("k", "v")], timestamps := [("k", 0)] }
    ∧ storeV2_set
        { max_size := 1000, expiration_time := 60, cleanup_interval := 60 }
        [] 0 "k" "v"
      = PyResult.ok [("k", ("v", 60))]
    ∧ storeV2_get
        { max_size := 1000, expiration_time := 60, cleanup_interval := 60 }
        [("k", ("v", 60))] 61 "k" "d"
      = ("d", []) := by
  exact ⟨rfl, rfl, rfl, rfl, rfl⟩

/-! ### Claim C8 -/

/-- Claim C8 (evaluation at the failing inputs): both `__len__`
implementations disagree with "the number of resident entries whose
expiration deadline has not yet passed".  `store.py`'s `SessionStore.__len__`
returns `len(self._store)`: with one entry set at time 0 under
`expiration_time = 60`, at time 100 it still reports 1 although the live
count is 0.  `session.py`'s `SessionStore.__len__` counts `_timestamps`,
which leaks evicted keys: with `max_size = 1`, after `set(a); set(b)` it
reports 2 although only `b` is resident (and live). -/
theorem c8_len_eval :
    storeV2_len ([("k", ("v", 60))] : StoreV2State String String) = 1
    ∧ storeV2_liveCount ([("k", ("v", 60))] : StoreV2State String String) 100
      = 0
    ∧ storeV2_set
        { max_size := 1000, expiration_time := 60, cleanup_interval := 60 }
        ([] : StoreV2State String String) 0 "k" "v"
      = PyResult.ok [("k", ("v", 60))]
    ∧ sessionV1_run
        { max_size := 1, expiration_time := 60, cleanup_interval := 60 }
        [CacheOp.set 0 "a" 1, CacheOp.set 0 "b" 2]
      = ({ store := [("b", 2)], timestamps := [("a", 0), ("b", 0)] } :
          SessionV1State String Nat)
    ∧ sessionV1_len
        { max_size := 1, expiration_time := 60, cleanup_interval := 60 }
        ({ store := [("b", 2)], timestamps := [("a", 0), ("b", 0)] } :
          SessionV1State String Nat) 0
      = 2
    ∧ sessionV1_liveCount
        { max_size := 1, expiration_time := 60, cleanup_interval := 60 }
        ({ store := [("b", 2)], timestamps := [("a", 0), ("b", 0)] } :
          SessionV1State String Nat) 0
      = 1 := by
  exact ⟨rfl, rfl, rfl, rfl, rfl, rfl⟩

/-! ### Claim C7 — counterexample on `session.py` -/

/-- Claim C7 counterexample: on `session.py`'s `SessionStore` with
`max_size = 3`, after `set(a,1); set(b,2); set(c,3)` the store is at capacity
and both `a` and `b` are resident, yet `set(b, 99)` — a rewrite of the
already-resident key `b` — evicts `a`: the guard `len >= max_size` in
`session.py`'s `set` does not exempt resident keys, so the resident keys
afterwards are `[b, c]`, refuting "calling set(k, v) for a key k that is
already resident evicts no entry". -/
theorem c7_counterexample :
    odMem (sessionV1_run
        { max_size := 3, expiration_time := 3600, cleanup_interval := 60 }
        [CacheOp.set 0 "a" 1, CacheOp.set 0 "b" 2,
         CacheOp.set 0 "c" 3]).store "a" = true
    ∧ odMem (sessionV1_run
        { max_size := 3, expiration_time := 3600, cleanup_interval := 60 }
        [CacheOp.set 0 "a" 1, CacheOp.set 0 "b" 2,
         CacheOp.set 0 "c" 3]).store "b" = true
    ∧ (sessionV1_run
        { max_size := 3, expiration_time := 3600, cleanup_interval := 60 }
        [CacheOp.set 0 "a" 1, CacheOp.set 0 "b" 2,
         CacheOp.set 0 "c" 3]).store.length = 3
    ∧ (sessionV1_run
        { max_size := 3, expiration_time := 3600, cleanup_interval := 60 }
        [CacheOp.set 0 "a" 1, CacheOp.set 0 "b" 2, CacheOp.set 0 "c" 3,
         CacheOp.set 0 "b" 99]).store.map Prod.fst = ["b", "c"] := by
  exact ⟨rfl, rfl, rfl, rfl⟩

/-! ### Claim C6 — counterexample on `store.py`'s `MixedStorage` -/

/-- Claim C6 counterexample: on `store.py`'s `MixedStorage` (default
`max_size = 100`, `expiration_time = 300`), after `store("x", 1)` and
clearing the hot tier, `retrieve_session("x")` returns 1 served from the
cold tier but leaves the hot tier empty — it never writes the cold hit back,
refuting "immediately afterwards the hot tier itself holds x with value
v". -/
theorem c6_counterexample :
    mixedV2_store { max_size := 100, expiration_time := 300 }
        ({} : MixedV2State String Nat) 0 "x" 1
      = { hot := { data := [("x", (1, 0))] }, cold := [("x", 1)] }
    ∧ mixedV2_retrieve { max_size := 100, expiration_time := 300 }
        ({ hot := hotV2_clear { data := [("x", (1, 0))] },
           cold := [("x", 1)] } : MixedV2State String Nat) 0 "x"
      = (some 1, { hot := { data := [] }, cold := [("x", 1)] })
    ∧ odLookup (mixedV2_retrieve { max_size := 100, expiration_time := 300 }
        ({ hot := hotV2_clear { data := [("x", (1, 0))] },
           cold := [("x", 1)] } : MixedV2State String Nat) 0 "x").2.hot.data
        "x"
      = none := by
  exact ⟨rfl, rfl, rfl⟩

/-! ### Claim C2 — capacity invariant -/

theorem sessionV1_get_state {K V : Type} [DecidableEq K]
    (cfg : SessionStoreConfig) (st : SessionV1State K V) (now : Nat) (k : K)
    (dflt : V) : (sessionV1_get cfg st now k dflt).2 = st := by
  unfold sessionV1_get
  cases odLookup st.store k with
  | none => rfl
  | some v =>
    cases odLookup st.timestamps k with
    | none => rfl
    | some ts =>
      by_cases h : cfg.expiration_time < now - ts <;> simp [h]

theorem sessionV1_set_length {K V : Type} [DecidableEq K]
    (cfg : SessionStoreConfig) (st : SessionV1State K V) (now : Nat) (k : K)
    (v : V) (h : st.store.length ≤ cfg.max_size) :
    ∀ st', sessionV1_set cfg st now k v = .ok st' →
      st'.store.length ≤ cfg.max_size := by
  intro st' hok
  unfold sessionV1_set at hok
  by_cases hc : cfg.max_size ≤ st.store.length
  · rw [if_pos hc] at hok
    cases hst : st.store with
    | nil => rw [hst] at hok; exact absurd hok (by simp)
    | cons p rest =>
      rw [hst] at hok
      simp only [PyResult.ok.injEq] at hok
      subst hok
      have h1 : (odInsert rest k v).length ≤ rest.length + 1 :=
        odInsert_length_le rest k v
      have h2 : rest.length + 1 = st.store.length := by simp [hst]
      show (odInsert rest k v).length ≤ cfg.max_size
      omega
  · rw [if_neg hc] at hok
    simp only [PyResult.ok.injEq] at hok
    subst hok
    have h1 : (odInsert st.store k v).length ≤ st.store.length + 1 :=
      odInsert_length_le st.store k v
    show (odInsert st.store k v).length ≤ cfg.max_size
    omega

theorem sessionV1_step_length {K V : Type} [DecidableEq K]
    (cfg : SessionStoreConfig) (st : SessionV1State K V) (op : CacheOp K V)
    (h : st.store.length ≤ cfg.max_size) :
    (sessionV1_step cfg st op).store.length ≤ cfg.max_size := by
  cases op with
  | set now k v =>
    simp only [sessionV1_step]
    cases hres : sessionV1_set cfg st now k v with
    | ok st' => exact sessionV1_set_length cfg st now k v h st' hres
    | error _ => exact h
    | deadlock => exact h
  | get now k dflt =>
    simp only [sessionV1_step, sessionV1_get_state]
    exact h
  | del k =>
    simp only [sessionV1_step, sessionV1_delete]
    by_cases hm : odMem st.store k
    · simp only [if_pos hm]
      exact (odErase_length_le st.store k).trans h
    · simp only [if_neg hm]
      exact h
  | clear =>
    simp only [sessionV1_step, sessionV1_clear]
    exact Nat.zero_le _

theorem storeV2_set_length {K V : Type} [DecidableEq K]
    (cfg : SessionStoreConfig) (st : StoreV2State K V) (now : Nat) (k : K)
    (v : V) (h : st.length ≤ cfg.max_size) :
    ∀ st', storeV2_set cfg st now k v = .ok st' →
      st'.length ≤ cfg.max_size := by
  intro st' hok
  unfold storeV2_set at hok
  by_cases hm : odMem st k
  · rw [if_pos hm] at hok
    simp only [PyResult.ok.injEq] at hok
    subst hok
    have h1 : (odErase st k).length + 1 = st.length :=
      odErase_length_of_mem st k hm
    simp only [List.length_append, List.length_cons, List.length_nil]
    omega
  · rw [if_neg hm] at hok
    by_cases hc : cfg.max_size ≤ st.length
    · rw [if_pos hc] at hok
      cases hst : st with
      | nil => rw [hst] at hok; exact absurd hok (by simp)
      | cons p rest =>
        rw [hst] at hok
        simp only [PyResult.ok.injEq] at hok
        subst hok
        have h2 : rest.length + 1 = st.length := by simp [hst]
        simp only [List.length_append, List.length_cons, List.length_nil]
        omega
    · rw [if_neg hc] at hok
      simp only [PyResult.ok.injEq] at hok
      subst hok
      simp only [List.length_append, List.length_cons, List.length_nil]
      omega

theorem storeV2_get_length {K V : Type} [DecidableEq K]
    (cfg : SessionStoreConfig) (st : StoreV2State K V) (now : Nat) (k : K)
    (dflt : V) : ((storeV2_get cfg st now k dflt).2).length ≤ st.length := by
  unfold storeV2_get
  cases hl : odLookup st k with
  | none => simp
  | some p =>
    obtain ⟨v, ea⟩ := p
    by_cases hna : now ≤ ea
    · simp only [if_pos hna]
      unfold odMoveToEnd
      rw [hl]
      have h1 : (odErase st k).length + 1 = st.length :=
        odErase_length_of_mem st k (odMem_of_lookup hl)
      simp only [List.length_append, List.length_cons, List.length_nil]
      omega
    · simp only [if_neg hna]
      exact odErase_length_le st k

theorem storeV2_step_length {K V : Type} [DecidableEq K]
    (cfg : SessionStoreConfig) (st : StoreV2State K V) (op : CacheOp K V)
    (h : st.length ≤ cfg.max_size) :
    (storeV2_step cfg st op).length ≤ cfg.max_size := by
  cases op with
  | set now k v =>
    simp only [storeV2_step]
    cases hres : storeV2_set cfg st now k v with
    | ok st' => exact storeV2_set_length cfg st now k v h st' hres
    | error _ => exact h
    | deadlock => exact h
  | get now k dflt =>
    simp only [storeV2_step]
    exact (storeV2_get_length cfg st now k dflt).trans h
  | del k =>
    simp only [storeV2_step, storeV2_delete]
    by_cases hm : odMem st k
    · simp only [if_pos hm]
      exact (odErase_length_le st k).trans h
    · simp only [if_neg hm]
      exact h
  | clear =>
    simp only [storeV2_step, storeV2_clear]
    exact Nat.zero_le _

theorem hotV2_cap_helper {K V : Type} (m : Nat)
    (d : List (K × (V × Nat))) (x : K × (V × Nat)) (h1 : d.length ≤ m) :
    (if m < (d ++ [x]).length then
        ({ data := (d ++ [x]).tail } : HotV2State K V)
      else { data := d ++ [x] }).data.length ≤ m := by
  by_cases hc : m < (d ++ [x]).length
  · rw [if_pos hc]
    show ((d ++ [x]).tail).length ≤ m
    simp only [List.length_tail, List.length_append, List.length_cons,
      List.length_nil]
    omega
  · rw [if_neg hc]
    show (d ++ [x]).length ≤ m
    simp only [List.length_append, List.length_cons, List.length_nil] at hc ⊢
    omega

theorem hotV2_store_length {K V : Type} [DecidableEq K]
    (cfg : HotStorageConfig) (st : HotV2State K V) (now : Nat) (k : K)
    (v : V) (h : st.data.length ≤ cfg.max_size) :
    (hotV2_store cfg st now k v).data.length ≤ cfg.max_size := by
  have h0 : (hotV2_removeExpired cfg now st.data).length ≤ st.data.length :=
    List.length_filter_le _ _
  have h1 : (if odMem (hotV2_removeExpired cfg now st.data) k then
        odErase (hotV2_removeExpired cfg now st.data) k
      else hotV2_removeExpired cfg now st.data).length ≤ cfg.max_size := by
    by_cases hm : odMem (hotV2_removeExpired cfg now st.data) k
    · simp only [if_pos hm]
      exact ((odErase_length_le _ k).trans h0).trans h
    · simp only [if_neg hm]
      exact h0.trans h
  exact hotV2_cap_helper cfg.max_size _ (k, (v, now)) h1

theorem hotV2_step_length {K V : Type} [DecidableEq K]
    (cfg : HotStorageConfig) (st : HotV2State K V) (op : CacheOp K V)
    (h : st.data.length ≤ cfg.max_size) :
    (hotV2_step cfg st op).data.length ≤ cfg.max_size := by
  cases op with
  | set now k v => exact hotV2_store_length cfg st now k v h
  | get now k dflt =>
    simp only [hotV2_step, hotV2_retrieve]
    exact (List.length_filter_le _ _).trans h
  | del k =>
    simp only [hotV2_step, hotV2_delete]
    exact (odErase_length_le st.data k).trans h
  | clear =>
    simp only [hotV2_step, hotV2_clear]
    exact Nat.zero_le _

theorem hot_store_length {K V : Type} [DecidableEq K]
    (cfg : HotStorageConfig) (st : HotState K V) (now : Nat) (k : K) (v : V)
    (h : st.data.length ≤ cfg.max_size) :
    ∀ st', hot_store cfg st now k v = .ok st' →
      st'.data.length ≤ cfg.max_size := by
  intro st' hok
  unfold hot_store at hok
  by_cases hd : hot_anyExpired cfg.expiration_time now st.timestamps
  · rw [if_pos hd] at hok; exact absurd hok (by simp)
  · rw [if_neg hd] at hok
    by_cases hm : odMem st.data k
    · rw [if_pos hm] at hok
      simp only [PyResult.ok.injEq] at hok
      subst hok
      have h1 : (odErase st.data k).length + 1 = st.data.length :=
        odErase_length_of_mem st.data k hm
      show (odErase st.data k ++ [(k, v)]).length ≤ cfg.max_size
      simp only [List.length_append, List.length_cons, List.length_nil]
      omega
    · rw [if_neg hm] at hok
      by_cases hc : cfg.max_size ≤ st.data.length
      · rw [if_pos hc] at hok
        cases hst : st.data with
        | nil => rw [hst] at hok; exact absurd hok (by simp)
        | cons p rest =>
          rw [hst] at hok
          simp only [PyResult.ok.injEq] at hok
          subst hok
          have h2 : rest.length + 1 = st.data.length := by simp [hst]
          show (rest ++ [(k, v)]).length ≤ cfg.max_size
          simp only [List.length_append, List.length_cons, List.length_nil]
          omega
      · rw [if_neg hc] at hok
        simp only [PyResult.ok.injEq] at hok
        subst hok
        show (st.data ++ [(k, v)]).length ≤ cfg.max_size
        simp only [List.length_append, List.length_cons, List.length_nil]
        omega

theorem hot_retrieve_length {K V : Type} [DecidableEq K]
    (cfg : HotStorageConfig) (st : HotState K V) (now : Nat) (k : K) :
    ∀ r st', hot_retrieve cfg st now k = .ok (r, st') →
      st'.data.length ≤ st.data.length := by
  intro r st' hok
  unfold hot_retrieve at hok
  by_cases hd : hot_anyExpired cfg.expiration_time now st.timestamps
  · rw [if_pos hd] at hok; exact absurd hok (by simp)
  · rw [if_neg hd] at hok
    cases hl : odLookup st.data k with
    | none =>
      rw [hl] at hok
      simp only [PyResult.ok.injEq, Prod.mk.injEq] at hok
      rw [← hok.2]
    | some v =>
      rw [hl] at hok
      simp only [PyResult.ok.injEq, Prod.mk.injEq] at hok
      rw [← hok.2]
      have h1 : (odErase st.data k).length + 1 = st.data.length :=
        odErase_length_of_mem st.data k (odMem_of_lookup hl)
      show (odErase st.data k ++ [(k, v)]).length ≤ st.data.length
      simp only [List.length_append, List.length_cons, List.length_nil]
      omega

theorem hot_step_length {K V : Type} [DecidableEq K]
    (cfg : HotStorageConfig) (st : HotState K V) (op : CacheOp K V)
    (h : st.data.length ≤ cfg.max_size) :
    (hot_step cfg st op).data.length ≤ cfg.max_size := by
  cases op with
  | set now k v =>
    simp only [hot_step]
    cases hres : hot_store cfg st now k v with
    | ok st' => exact hot_store_length cfg st now k v h st' hres
    | error _ => exact h
    | deadlock => exact h
  | get now k dflt =>
    simp only [hot_step]
    cases hres : hot_retrieve cfg st now k with
    | ok p =>
      obtain ⟨r, st'⟩ := p
      exact (hot_retrieve_length cfg st now k r st' hres).trans h
    | error _ => exact h
    | deadlock => exact h
  | del k =>
    simp only [hot_step, hot_delete]
    by_cases hm : odMem st.data k
    · simp only [if_pos hm]
      exact (odErase_length_le st.data k).trans h
    · simp only [if_neg hm]
      exact h
  | clear =>
    simp only [hot_step, hot_clear]
    exact Nat.zero_le _

/-- Claim C2: for every configuration with `max_size ≥ 1` and every finite
sequence of `set`/`store`, `get`/`retrieve`, `delete` and `clear` operations
run against a fresh store, the number of resident entries is at most
`max_size` after every operation returns — shown for all four cache-store
variants (`session.py` `SessionStore`, `store.py` `SessionStore`, `store.py`
`HotStorage`, `storage/hot.py` `HotStorage`).  Every observable point is the
final state of some prefix of the sequence, so bounding the final resident
count of every sequence bounds every observable point. -/
theorem c2_capacity_invariant {K V : Type} [DecidableEq K] (m e cl : Nat)
    (_h : 1 ≤ m) :
    (∀ ops : List (CacheOp K V),
        (sessionV1_run
            { max_size := m, expiration_time := e, cleanup_interval := cl }
            ops).store.length ≤ m)
    ∧ (∀ ops : List (CacheOp K V),
        (storeV2_run
            { max_size := m, expiration_time := e, cleanup_interval := cl }
            ops).length ≤ m)
    ∧ (∀ ops : List (CacheOp K V),
        (hotV2_run { max_size := m, expiration_time := e } ops).data.length
          ≤ m)
    ∧ (∀ ops : List (CacheOp K V),
        (hot_run { max_size := m, expiration_time := e } ops).data.length
          ≤ m) := by
  refine ⟨fun ops => ?_, fun ops => ?_, fun ops => ?_, fun ops => ?_⟩
  · unfold sessionV1_run
    exact foldl_inv (fun st => st.store.length ≤ m) _
      (fun st op hst => sessionV1_step_length
        { max_size := m, expiration_time := e, cleanup_interval := cl }
        st op hst) ops {} (Nat.zero_le m)
  · unfold storeV2_run
    exact foldl_inv (fun st => st.length ≤ m) _
      (fun st op hst => storeV2_step_length
        { max_size := m, expiration_time := e, cleanup_interval := cl }
        st op hst) ops [] (Nat.zero_le m)
  · unfold hotV2_run
    exact foldl_inv (fun st => st.data.length ≤ m) _
      (fun st op hst => hotV2_step_length
        { max_size := m, expiration_time := e } st op hst) ops {}
      (Nat.zero_le m)
  · unfold hot_run
    exact foldl_inv (fun st => st.data.length ≤ m) _
      (fun st op hst => hot_step_length
        { max_size := m, expiration_time := e } st op hst) ops {}
      (Nat.zero_le m)

/-- Claim C2 witness: the invariant instantiated at `max_size = 2` and a
concrete operation sequence that overflows, reads, deletes and clears. -/
theorem c2_capacity_witness :
    (1 ≤ 2)
    ∧ (sessionV1_run
        { max_size := 2, expiration_time := 60, cleanup_interval := 60 }
        [CacheOp.set 0 "a" 1, CacheOp.set 0 "b" 2, CacheOp.set 0 "c" 3,
         CacheOp.get 1 "a" 0, CacheOp.del "b",
         CacheOp.set 1 "d" 4]).store.length ≤ 2
    ∧ (storeV2_run
        { max_size := 2, expiration_time := 60, cleanup_interval := 60 }
        [CacheOp.set 0 "a" 1, CacheOp.set 0 "b" 2, CacheOp.set 0 "c" 3,
         CacheOp.get 1 "a" 0, CacheOp.del "b",
         CacheOp.set 1 "d" 4]).length ≤ 2
    ∧ (hotV2_run { max_size := 2, expiration_time := 60 }
        [CacheOp.set 0 "a" 1, CacheOp.set 0 "b" 2, CacheOp.set 0 "c" 3,
         CacheOp.get 1 "a" 0, CacheOp.del "b",
         CacheOp.set 1 "d" 4]).data.length ≤ 2
    ∧ (hot_run { max_size := 2, expiration_time := 60 }
        [CacheOp.set 0 "a" 1, CacheOp.set 0 "b" 2, CacheOp.set 0 "c" 3,
         CacheOp.get 1 "a" 0, CacheOp.del "b",
         CacheOp.set 1 "d" 4]).data.length ≤ 2 := by
  have h := c2_capacity_invariant (K := String) (V := Nat) 2 60 60
    (by decide)
  exact ⟨by decide, h.1 _, h.2.1 _, h.2.2.1 _, h.2.2.2 _⟩

/-! ### Claim C7 — frame property on `store.py`'s `SessionStore` -/

/-- Claim C7 (amended to `store.py`'s `SessionStore`, the variant with the
`key in store` guard): at capacity, `set(k, v)` of an already-resident key
`k` evicts nothing — the result is the old table with `k` deleted and
re-appended at the MRU tail, its length is unchanged, every other resident
key maps to its old value, and `k` maps to the fresh
`(v, now + expiration_time)`; head eviction (dropping the oldest entry)
happens exactly when the key being set is new and the store is at
capacity.  (`session.py`'s `SessionStore.set` lacks the resident-key guard
and evicts the head even on a rewrite — see the counterexample.) -/
theorem c7_frame_property {K V : Type} [DecidableEq K]
    (cfg : SessionStoreConfig) (st : StoreV2State K V) (now : Nat) (k : K)
    (v : V) (hmem : odMem st k = true) (_hcap : st.length = cfg.max_size)
    (hnd : (st.map Prod.fst).Nodup) :
    storeV2_set cfg st now k v
      = PyResult.ok (odErase st k ++ [(k, (v, now + cfg.expiration_time))])
    ∧ (odErase st k ++ [(k, (v, now + cfg.expiration_time))]).length
      = st.length
    ∧ (∀ k₁, k₁ ≠ k →
        odLookup (odErase st k ++ [(k, (v, now + cfg.expiration_time))]) k₁
          = odLookup st k₁)
    ∧ odLookup (odErase st k ++ [(k, (v, now + cfg.expiration_time))]) k
      = some (v, now + cfg.expiration_time)
    ∧ (∀ (st₂ : StoreV2State K V) (k₂ : K) (v₂ : V),
        odMem st₂ k₂ = false → cfg.max_size ≤ st₂.length → st₂ ≠ [] →
        storeV2_set cfg st₂ now k₂ v₂
          = PyResult.ok
              (st₂.tail ++ [(k₂, (v₂, now + cfg.expiration_time))])) := by
  refine ⟨?_, ?_, ?_, ?_, ?_⟩
  · unfold storeV2_set
    rw [if_pos hmem]
  · have h1 : (odErase st k).length + 1 = st.length :=
      odErase_length_of_mem st k hmem
    simp only [List.length_append, List.length_cons, List.length_nil]
    omega
  · intro k₁ h
    have hne : k ≠ k₁ := fun hh => h hh.symm
    rw [odLookup_append, odLookup_odErase_ne st k k₁ h]
    cases hl : odLookup st k₁ with
    | none =>
      simp only [odLookup, if_neg hne]
    | some w => rfl
  · rw [odLookup_append, odLookup_odErase_self hnd]
    simp [odLookup]
  · intro st₂ k₂ v₂ hm2 hc2 hne2
    unfold storeV2_set
    rw [if_neg (by simp [hm2]), if_pos hc2]
    cases st₂ with
    | nil => exact absurd rfl hne2
    | cons p rest => rfl

/-- Claim C7 witness: the frame property instantiated at a concrete
two-entry store at capacity (`max_size = 2`), rewriting resident key `a`,
and head eviction for the new key `c`. -/
theorem c7_frame_witness :
    odMem ([("a", (1, 10)), ("b", (2, 20))] : StoreV2State String Nat) "a"
      = true
    ∧ storeV2_set ⟨2, 60, 60⟩
        [("a", (1, 10)), ("b", (2, 20))] 5 "a" 7
      = PyResult.ok (odErase [("a", (1, 10)), ("b", (2, 20))] "a"
          ++ [("a", (7, 65))])
    ∧ (odErase [("a", (1, 10)), ("b", (2, 20))] "a"
        ++ [("a", (7, 65))]).length
      = ([("a", (1, 10)), ("b", (2, 20))] : StoreV2State String Nat).length
    ∧ odLookup (odErase [("a", (1, 10)), ("b", (2, 20))] "a"
        ++ [("a", (7, 65))]) "b"
      = odLookup [("a", (1, 10)), ("b", (2, 20))] "b"
    ∧ odLookup (odErase [("a", (1, 10)), ("b", (2, 20))] "a"
        ++ [("a", (7, 65))]) "a"
      = some (7, 65)
    ∧ storeV2_set ⟨2, 60, 60⟩
        [("a", (1, 10)), ("b", (2, 20))] 5 "c" 7
      = PyResult.ok ([("a", (1, 10)), ("b", (2, 20))].tail
          ++ [("c", (7, 65))]) := by
  have h := c7_frame_property ⟨2, 60, 60⟩
    [("a", (1, 10)), ("b", (2, 20))] 5 "a" 7 (by decide) (by decide)
    (by decide)
  exact ⟨by decide, h.1, h.2.1, h.2.2.1 "b" (by decide), h.2.2.2.1,
    h.2.2.2.2 [("a", (1, 10)), ("b", (2, 20))] "c" 7 (by decide) (by decide)
      (by decide)⟩

/-! ### Claim C9 — stored `None` is indistinguishable from absence -/

theorem c9_core {K α : Type} [DecidableEq K] (cfg : SessionStoreConfig)
    (A : List (K × Option α)) (B : List (K × Nat)) (t now : Nat) (k : K)
    (hexp : t - now ≤ cfg.expiration_time) :
    odMem (odInsert A k (none : Option α)) k = true
    ∧ sessionV1_contains cfg
        { store := odInsert A k none, timestamps := odInsert B k now } t k
      = PyResult.ok false
    ∧ sessionV1_getitem cfg
        { store := odInsert A k none, timestamps := odInsert B k now } t k
      = ItemResult.keyError := by
  have hs : odLookup (odInsert A k (none : Option α)) k = some none :=
    odLookup_odInsert_self A k none
  have ht : odLookup (odInsert B k now) k = some now :=
    odLookup_odInsert_self B k now
  have hnexp : ¬(cfg.expiration_time < t - now) := by omega
  refine ⟨by simp [odMem, hs], ?_, ?_⟩
  · simp [sessionV1_contains, sessionV1_get, hs, ht, hnexp]
  · simp [sessionV1_getitem, sessionV1_get, hs, ht, hnexp]

/-- Claim C9: on `session.py`'s `SessionStore`, a stored `None` value is
indistinguishable from an absent key at the dict-like surface — after
`set(k, None)` the key is physically resident, yet while the entry is
unexpired `k in store` is `False` (membership is `self.get(key) is not
None`) and `store[k]` raises `KeyError` (subscript access raises when `get`
returned `None`). -/
theorem c9_none_indistinguishable {K α : Type} [DecidableEq K]
    (cfg : SessionStoreConfig) (st : SessionV1State K (Option α))
    (now t : Nat) (k : K) (s1 : SessionV1State K (Option α))
    (hok : sessionV1_set cfg st now k none = PyResult.ok s1)
    (hexp : t - now ≤ cfg.expiration_time) :
    odMem s1.store k = true
    ∧ sessionV1_contains cfg s1 t k = PyResult.ok false
    ∧ sessionV1_getitem cfg s1 t k = ItemResult.keyError := by
  unfold sessionV1_set at hok
  by_cases hc : cfg.max_size ≤ st.store.length
  · rw [if_pos hc] at hok
    cases hst : st.store with
    | nil => rw [hst] at hok; exact absurd hok (by simp)
    | cons p rest =>
      rw [hst] at hok
      simp only [PyResult.ok.injEq] at hok
      rw [← hok]
      exact c9_core cfg rest st.timestamps t now k hexp
  · rw [if_neg hc] at hok
    simp only [PyResult.ok.injEq] at hok
    rw [← hok]
    exact c9_core cfg st.store st.timestamps t now k hexp

/-- Claim C9 witness: `set("k", None)` on a fresh store, then membership and
subscript access 10 seconds later with `expiration_time = 60`. -/
theorem c9_none_witness :
    sessionV1_set ⟨3, 60, 60⟩ ({} : SessionV1State String (Option Nat))
        0 "k" none
      = PyResult.ok { store := [("k", none)], timestamps := [("k", 0)] }
    ∧ (10 - 0 ≤ 60)
    ∧ (odMem (({ store := [("k", none)], timestamps := [("k", 0)] } :
          SessionV1State String (Option Nat)).store) "k" = true
       ∧ sessionV1_contains ⟨3, 60, 60⟩
          ({ store := [("k", none)], timestamps := [("k", 0)] } :
            SessionV1State String (Option Nat)) 10 "k"
        = PyResult.ok false
       ∧ sessionV1_getitem ⟨3, 60, 60⟩
          ({ store := [("k", none)], timestamps := [("k", 0)] } :
            SessionV1State String (Option Nat)) 10 "k"
        = ItemResult.keyError) :=
  ⟨rfl, by decide,
    c9_none_indistinguishable ⟨3, 60, 60⟩ {} 0 10 "k"
      { store := [("k", none)], timestamps := [("k", 0)] } rfl (by decide)⟩

/-! ### Claim C6 — read-through repopulation on `storage/mixed.py` -/

theorem hot_store_ok {K V : Type} [DecidableEq K] (cfg : HotStorageConfig)
    (st : HotState K V) (now : Nat) (k : K) (v : V) (h1 : 1 ≤ cfg.max_size)
    (hfresh : hot_anyExpired cfg.expiration_time now st.timestamps = false) :
    ∃ st', hot_store cfg st now k v = .ok st' := by
  unfold hot_store
  rw [if_neg (by simp [hfresh])]
  by_cases hm : odMem st.data k
  · rw [if_pos hm]
    exact ⟨_, rfl⟩
  · rw [if_neg hm]
    by_cases hc : cfg.max_size ≤ st.data.length
    · rw [if_pos hc]
      cases hst : st.data with
      | nil =>
        exfalso
        rw [hst] at hc
        simp at hc
        omega
      | cons p rest => exact ⟨_, rfl⟩
    · rw [if_neg hc]
      exact ⟨_, rfl⟩

/-- Claim C6 (amended to `storage/mixed.py`'s `MixedStorage`, the variant
that writes cold hits back): provided the hot tier has positive capacity and
holds no already-expired entry (whose sweep would deadlock), `store(k, v)`
writes through to both tiers; after clearing the hot tier,
`retrieve_session(k)` returns `v` served from the cold tier and leaves the
hot tier holding exactly `k ↦ v` (repopulated); and when a key is present in
neither tier, `retrieve_session` returns `None` — the cold tier's `KeyError`
is caught — rather than raising.  (`store.py`'s `MixedStorage` does not
repopulate — see the counterexample.) -/
theorem c6_read_through {K V : Type} [DecidableEq K]
    (cfg : HotStorageConfig) (st : MixedV3State K V) (now : Nat) (k : K)
    (v : V) (h1 : 1 ≤ cfg.max_size)
    (hfresh : hot_anyExpired cfg.expiration_time now st.hot.timestamps
      = false) :
    (∃ hot1, mixedV3_store cfg st now k v
        = PyResult.ok { hot := hot1, cold := odInsert st.cold k v })
    ∧ mixedV3_retrieve cfg
        { hot := hot_clear st.hot, cold := odInsert st.cold k v } now k
      = PyResult.ok (some v,
          { hot := { data := [(k, v)], timestamps := [(k, now)] },
            cold := odInsert st.cold k v })
    ∧ odLookup
        ({ data := [(k, v)], timestamps := [(k, now)] } :
          HotState K V).data k
      = some v
    ∧ (∀ (st' : MixedV3State K V) (k' : K),
        hot_anyExpired cfg.expiration_time now st'.hot.timestamps = false →
        odLookup st'.hot.data k' = none →
        odLookup st'.cold k' = none →
        mixedV3_retrieve cfg st' now k' = PyResult.ok (none, st')) := by
  refine ⟨?_, ?_, by simp [odLookup], ?_⟩
  · obtain ⟨hot1, hh⟩ := hot_store_ok cfg st.hot now k v h1 hfresh
    refine ⟨hot1, ?_⟩
    unfold mixedV3_store
    rw [hh]
    rfl
  · have hr : hot_retrieve cfg (hot_clear st.hot) now k
        = .ok (none, hot_clear st.hot) := by
      unfold hot_retrieve hot_clear hot_anyExpired
      simp [odLookup]
    have hcold : cold_retrieve (odInsert st.cold k v) k = some v :=
      odLookup_odInsert_self st.cold k v
    have hstore : hot_store cfg (hot_clear st.hot) now k v
        = .ok { data := [(k, v)], timestamps := [(k, now)] } := by
      unfold hot_store hot_clear
      rw [if_neg (by simp [hot_anyExpired])]
      rw [if_neg (by simp [odMem, odLookup])]
      rw [if_neg (by simp; omega)]
      rfl
    simp only [mixedV3_retrieve, hr, hcold, hstore]
  · intro st' k' hfr hle hlc
    have hr : hot_retrieve cfg st'.hot now k' = .ok (none, st'.hot) := by
      unfold hot_retrieve
      rw [if_neg (by simp [hfr])]
      rw [hle]
    simp only [mixedV3_retrieve, hr, cold_retrieve, hlc]

/-- Claim C6 witness: write-through, clear, read-through repopulation and
the absent case, on a fresh `storage/mixed.py` store with hot capacity 2. -/
theorem c6_read_through_witness :
    (∃ hot1, mixedV3_store ⟨2, 300⟩ ({} : MixedV3State String Nat) 0 "x" 1
        = PyResult.ok { hot := hot1, cold := odInsert [] "x" 1 })
    ∧ mixedV3_retrieve ⟨2, 300⟩
        ({ hot := hot_clear {}, cold := odInsert [] "x" 1 } :
          MixedV3State String Nat) 0 "x"
      = PyResult.ok (some 1,
          { hot := { data := [("x", 1)], timestamps := [("x", 0)] },
            cold := odInsert [] "x" 1 })
    ∧ odLookup
        ({ data := [("x", 1)], timestamps := [("x", 0)] } :
          HotState String Nat).data "x"
      = some 1
    ∧ mixedV3_retrieve ⟨2, 300⟩ ({} : MixedV3State String Nat) 0 "y"
      = PyResult.ok (none, {}) := by
  have h := c6_read_through ⟨2, 300⟩ ({} : MixedV3State String Nat) 0 "x" 1
    (by decide) rfl
  exact ⟨h.1, h.2.1, h.2.2.1, h.2.2.2 {} "y" rfl rfl rfl⟩

/-! ### Claim C4 — locking lifecycle (spec-modelled) -/

/-- Claim C4 (against the spec-modelled Lock Manager, whose implementing
module is absent from `src/`): for a resident key `k` whose entry is not
`Locked` with an unexpired lease, `lock(k, d)` returns `true` and sets the
entry's status to `Locked` with `lock_expire = now + d`; every `get(k)`
strictly before `lock_expire` (the entry not being TTL-expired) yields the
`Busy` error, never a miss; the first access at or after `lock_expire`
returns the stored value and resets the status to `Active`; and `lock`
returns `false` when the key is absent or already `Locked` with an unexpired
lease. -/
theorem c4_locking_lifecycle {K V : Type} [DecidableEq K]
    (cfg : SessionStoreConfig) (st : SpecState K V) (now d : Nat) (k : K)
    (e : SpecEntry V) (hres : odLookup st k = some e)
    (hunlocked : spec_lockBusy e now = false)
    (hnd : (st.map Prod.fst).Nodup) :
    (spec_lock st now k d).1 = true
    ∧ odLookup (spec_lock st now k d).2 k
      = some { e with status := SessionStatus.locked,
                      lock_expire := some (now + d) }
    ∧ (∀ t, t < now + d → t ≤ e.expire_at →
        (spec_get cfg (spec_lock st now k d).2 t k).1 = SpecGetResult.busy)
    ∧ (∀ t, now + d ≤ t → t ≤ e.expire_at →
        (spec_get cfg (spec_lock st now k d).2 t k).1
          = SpecGetResult.found e.value
        ∧ (spec_get_metadata (spec_get cfg (spec_lock st now k d).2 t k).2
            k).map SpecEntry.status = some SessionStatus.active)
    ∧ (∀ (st₀ : SpecState K V) (k₀ : K), odLookup st₀ k₀ = none →
        (spec_lock st₀ now k₀ d).1 = false)
    ∧ (∀ (st₁ : SpecState K V) (k₁ : K) (e₁ : SpecEntry V),
        odLookup st₁ k₁ = some e₁ → spec_lockBusy e₁ now = true →
        (spec_lock st₁ now k₁ d).1 = false) := by
  have hlock : spec_lock st now k d
      = (true, odInsert st k
          { e with status := SessionStatus.locked,
                   lock_expire := some (now + d) }) := by
    simp only [spec_lock, hres]
    rw [if_neg (by simp [hunlocked])]
  have hlook : odLookup (spec_lock st now k d).2 k
      = some { e with status := SessionStatus.locked,
                      lock_expire := some (now + d) } := by
    rw [hlock]
    exact odLookup_odInsert_self st k _
  refine ⟨by rw [hlock], hlook, ?_, ?_, ?_, ?_⟩
  · intro t ht hexp
    have hexp' : ¬ e.expire_at < t := by omega
    have hbusy : spec_lockBusy
        { e with status := SessionStatus.locked,
                 lock_expire := some (now + d) } t = true := by
      simp [spec_lockBusy, ht]
    simp [spec_get, hlook, hbusy, hexp']
  · intro t ht hexp
    have hexp' : ¬ e.expire_at < t := by omega
    have hnotbusy : spec_lockBusy
        { e with status := SessionStatus.locked,
                 lock_expire := some (now + d) } t = false := by
      simp [spec_lockBusy]
      omega
    have hnd' : (((spec_lock st now k d).2).map Prod.fst).Nodup := by
      rw [hlock]
      exact odInsert_keys_nodup k _ hnd
    have herase : odLookup (odErase (spec_lock st now k d).2 k) k = none :=
      odLookup_odErase_self hnd'
    constructor
    · simp [spec_get, hlook, hnotbusy, hexp']
    · simp [spec_get, hlook, hnotbusy, hexp', spec_get_metadata,
        odLookup_append, herase, odLookup]
  · intro st₀ k₀ h0
    unfold spec_lock
    rw [h0]
  · intro st₁ k₁ e₁ h1' hb
    simp only [spec_lock, h1']
    rw [if_pos hb]

/-- Claim C4 witness: the locking lifecycle instantiated at a one-entry
store, `lock("k", 5)` at time 10, a busy `get` at time 12, the unlocking
`get` at time 20, a `lock` of the absent key `z`, and a second `lock` of the
already-locked key. -/
theorem c4_locking_witness :
    (spec_lock
        ([("k", ⟨5, 100, none, SessionStatus.active, 0, 0⟩)] :
          SpecState String Nat) 10 "k" 5).1 = true
    ∧ odLookup (spec_lock
        ([("k", ⟨5, 100, none, SessionStatus.active, 0, 0⟩)] :
          SpecState String Nat) 10 "k" 5).2 "k"
      = some ⟨5, 100, some 15, SessionStatus.locked, 0, 0⟩
    ∧ (spec_get ⟨1000, 3600, 60⟩ (spec_lock
        ([("k", ⟨5, 100, none, SessionStatus.active, 0, 0⟩)] :
          SpecState String Nat) 10 "k" 5).2 12 "k").1 = SpecGetResult.busy
    ∧ ((spec_get ⟨1000, 3600, 60⟩ (spec_lock
        ([("k", ⟨5, 100, none, SessionStatus.active, 0, 0⟩)] :
          SpecState String Nat) 10 "k" 5).2 20 "k").1
        = SpecGetResult.found 5
       ∧ (spec_get_metadata (spec_get ⟨1000, 3600, 60⟩ (spec_lock
            ([("k", ⟨5, 100, none, SessionStatus.active, 0, 0⟩)] :
              SpecState String Nat) 10 "k" 5).2 20 "k").2 "k").map
            SpecEntry.status
        = some SessionStatus.active)
    ∧ (spec_lock
        ([("k", ⟨5, 100, none, SessionStatus.active, 0, 0⟩)] :
          SpecState String Nat) 10 "z" 5).1 = false
    ∧ (spec_lock (spec_lock
        ([("k", ⟨5, 100, none, SessionStatus.active, 0, 0⟩)] :
          SpecState String Nat) 10 "k" 5).2 10 "k" 5).1 = false := by
  have h := c4_locking_lifecycle (V := Nat) ⟨1000, 3600, 60⟩
    [("k", ⟨5, 100, none, SessionStatus.active, 0, 0⟩)] 10 5 "k"
    ⟨5, 100, none, SessionStatus.active, 0, 0⟩ rfl (by decide) (by decide)
  exact ⟨h.1, h.2.1, h.2.2.1 12 (by decide) (by decide),
    h.2.2.2.1 20 (by decide) (by decide),
    h.2.2.2.2.1 _ "z" rfl,
    h.2.2.2.2.2 (spec_lock
      [("k", ⟨5, 100, none, SessionStatus.active, 0, 0⟩)] 10 "k" 5).2 "k"
      ⟨5, 100, some 15, SessionStatus.locked, 0, 0⟩ rfl (by decide)⟩

/-! ### Claim C5 — persistence round-trip (spec-modelled) -/

theorem keys_of_odLookup_none {K V : Type} [DecidableEq K]
    {s : List (K × V)} {k : K} (h : odLookup s k = none) :
    ∀ p ∈ s, p.1 ≠ k := by
  induction s with
  | nil => intro p hp; simp at hp
  | cons q rest ih =>
    obtain ⟨k', v'⟩ := q
    by_cases hk : k' = k
    · simp [odLookup, hk] at h
    · simp only [odLookup, if_neg hk] at h
      intro p hp
      rcases List.mem_cons.mp hp with h1 | h1
      · rw [h1]; exact hk
      · exact ih h p h1

theorem odMem_false_lookup {K V : Type} [DecidableEq K] {s : List (K × V)}
    {k : K} (h : odMem s k = false) : odLookup s k = none := by
  unfold odMem at h
  cases hl : odLookup s k with
  | none => rfl
  | some v => rw [hl] at h; simp at h

theorem roundtrip_keys {K V : Type} (s : SpecState K V)
    (tstop topen : Nat) :
    ∀ p ∈ spec_restore (spec_stop s tstop) topen, ∃ q ∈ s, p.1 = q.1 := by
  intro p hp
  unfold spec_restore spec_stop spec_snapshot at hp
  simp only [List.mem_map, List.mem_filter] at hp
  obtain ⟨q, ⟨⟨r, ⟨hrs, _⟩, hfr⟩, _⟩, hgp⟩ := hp
  refine ⟨r, hrs, ?_⟩
  rw [← hgp, ← hfr]

theorem c5_core {K V : Type} [DecidableEq K] (cfg : SessionStoreConfig)
    (pre : SpecState K V) (k : K) (v : V) (tset tstop topen tget : Nat)
    (hpre : ∀ p ∈ pre, p.1 ≠ k)
    (h1 : tstop ≤ tset + cfg.expiration_time)
    (h2 : topen ≤ tset + cfg.expiration_time)
    (h3 : tget ≤ tset + cfg.expiration_time) :
    (spec_get cfg (spec_restore (spec_stop
        (pre ++ [(k, { value := v, expire_at := tset + cfg.expiration_time,
                       lock_expire := none, status := SessionStatus.active,
                       access_count := 0, last_access := tset })]) tstop)
        topen) tget k).1
      = SpecGetResult.found v := by
  have hsnap : spec_stop
      (pre ++ [(k, (⟨v, tset + cfg.expiration_time, none,
          SessionStatus.active, 0, tset⟩ : SpecEntry V))]) tstop
      = spec_stop pre tstop
        ++ [(k, (⟨v, tset + cfg.expiration_time, SessionStatus.active, 0⟩ :
            PersistedEntry V))] := by
    simp [spec_stop, spec_snapshot, List.filter_append, h1]
  have hrest : spec_restore (spec_stop pre tstop
        ++ [(k, (⟨v, tset + cfg.expiration_time, SessionStatus.active, 0⟩ :
            PersistedEntry V))]) topen
      = spec_restore (spec_stop pre tstop) topen
        ++ [(k, (⟨v, tset + cfg.expiration_time, none,
            SessionStatus.active, 0, topen⟩ : SpecEntry V))] := by
    simp [spec_restore, List.filter_append, h2]
  have hnone : odLookup (spec_restore (spec_stop pre tstop) topen) k
      = none := by
    apply odLookup_eq_none_of_keys
    intro p hp
    obtain ⟨q, hq, hpq⟩ := roundtrip_keys pre tstop topen p hp
    rw [hpq]
    exact hpre q hq
  have h3' : ¬ tset + cfg.expiration_time < tget := by omega
  rw [hsnap, hrest]
  simp [spec_get, odLookup_append, hnone, odLookup, spec_lockBusy, h3']

/-- Claim C5 (against the spec-modelled Persistence Manager, whose
implementing module is absent from `src/`): after `set(k, v)` at `tset` and
`stop()` at `tstop` (which flushes a final snapshot), a store reopened from
the same persisted snapshot at `topen` restores the entries and `get(k)` at
`tget` returns `v`, provided the entry's deadline `tset + expiration_time`
has not passed at any of those instants (in particular it had not expired at
stop time); moreover every entry whose persisted `expire_at` is already in
the past at restore time is skipped — every restored entry is unexpired. -/
theorem c5_persistence_round_trip {K V : Type} [DecidableEq K]
    (cfg : SessionStoreConfig) (st : SpecState K V) (k : K) (v : V)
    (tset tstop topen tget : Nat) (hnd : (st.map Prod.fst).Nodup)
    (h1 : tstop ≤ tset + cfg.expiration_time)
    (h2 : topen ≤ tset + cfg.expiration_time)
    (h3 : tget ≤ tset + cfg.expiration_time) :
    (spec_get cfg (spec_restore (spec_stop (spec_set cfg st tset k v) tstop)
        topen) tget k).1
      = SpecGetResult.found v
    ∧ (∀ (snap : List (K × PersistedEntry V)) (p : K × SpecEntry V),
        p ∈ spec_restore snap topen → topen ≤ p.2.expire_at) := by
  constructor
  · simp only [spec_set]
    by_cases hm : odMem st k
    · rw [if_pos hm]
      exact c5_core cfg (odErase st k) k v tset tstop topen tget
        (keys_of_odLookup_none (odLookup_odErase_self hnd)) h1 h2 h3
    · have hmf : odMem st k = false := by simpa using hm
      have hkeys : ∀ p ∈ st, p.1 ≠ k :=
        keys_of_odLookup_none (odMem_false_lookup hmf)
      rw [if_neg hm]
      by_cases hc : cfg.max_size ≤ st.length
      · rw [if_pos hc]
        exact c5_core cfg st.tail k v tset tstop topen tget
          (fun p hp => hkeys p (List.mem_of_mem_tail hp)) h1 h2 h3
      · rw [if_neg hc]
        exact c5_core cfg st k v tset tstop topen tget hkeys h1 h2 h3
  · intro snap p hp
    unfold spec_restore at hp
    simp only [List.mem_map, List.mem_filter] at hp
    obtain ⟨q, ⟨_, hq2⟩, hqp⟩ := hp
    rw [← hqp]
    simpa using hq2

/-- Claim C5 witness: the round-trip instantiated on a fresh store with
`expiration_time = 100` — `set("k", 42)` at time 0, `stop()` at time 10,
reopen at time 20, `get` at time 30 — and the restore-skip guarantee applied
to a persisted entry with deadline 25 restored at time 20. -/
theorem c5_persistence_witness :
    (spec_get ⟨1000, 100, 60⟩
        (spec_restore
          (spec_stop
            (spec_set ⟨1000, 100, 60⟩ ([] : SpecState String Nat) 0 "k" 42)
            10) 20) 30 "k").1
      = SpecGetResult.found 42
    ∧ (20 : Nat) ≤ ((⟨7, 25, none, SessionStatus.active, 0, 20⟩ :
        SpecEntry Nat)).expire_at := by
  have h := c5_persistence_round_trip ⟨1000, 100, 60⟩
    ([] : SpecState String Nat) "k" 42 0 10 20 30 (by decide) (by decide)
    (by decide) (by decide)
  exact ⟨h.1,
    h.2 [("a", ⟨7, 25, SessionStatus.active, 0⟩)]
      ("a", ⟨7, 25, none, SessionStatus.active, 0, 20⟩) (by decide)⟩
